import Mathlib

/-!
# ember-authentication: verification of the session-authentication core

Shallow embedding of the repository's three source files:

* `server/index.js` — the Express backend: `POST /token` issues the static
  bearer token `"some bs"` for the credential pair login/password and
  rejects anything else with 400 `invalid_grant`; `GET /api/codes` serves
  the secret codes only to a request whose `authorization` header is the
  exact string `"Bearer some bs"` and answers 401 `Unauthorized` otherwise.
* `app/services/auth-manager.js` — the Ember service holding the single
  mutable property `accessToken` (initially `null`), with `authenticate`,
  `invalidate` and the computed boolean `isAuthenticated`.
* `app/adapter/application.js` — the adapter whose `headers` computed
  property interpolates the current token into an `Authorization` header,
  and `app/routes/application.js`, whose `error` action redirects to
  `/login`.
-/

namespace EmberAuth

/-- Body of a `POST /token` request as the Express handler sees it after
`bodyParser.urlencoded`: each field is either absent (JS `undefined`,
modelled `none`) or a string. -/
structure TokenReqBody where
  username : Option String
  password : Option String
  deriving DecidableEq, Repr

/-- Parsed body of a response from `POST /token`: the success shape carries
`access_token`, the failure shape carries an `error` string. -/
inductive TokenRespBody where
  | success (access_token : String)
  | failure (error : String)
  deriving DecidableEq, Repr

/-- An HTTP response of the `/token` endpoint: status code and body. -/
structure TokenResponse where
  status : Nat
  body : TokenRespBody
  deriving DecidableEq, Repr

/-- `server/index.js`, `app.post('/token')`: when the submitted form fields
are exactly `username == 'login'` and `password == 'password'` the handler
answers with the static token (`res.send` without a status defaults to
HTTP 200); every other body gets `res.status(400)` with
`{error: "invalid_grant"}`.  A missing field is `undefined`, which JS `==`
never equates with a string literal. -/
def postToken (req : TokenReqBody) : TokenResponse :=
  if req.username = some "login" ∧ req.password = some "password" then
    { status := 200, body := TokenRespBody.success "some bs" }
  else
    { status := 400, body := TokenRespBody.failure "invalid_grant" }

/-- Attributes of one secret code record served by the backend. -/
structure CodeAttributes where
  description : String
  deriving DecidableEq, Repr

/-- One record of the JSON:API payload of `GET /api/codes`. -/
structure Code where
  type : String
  id : String
  attributes : CodeAttributes
  deriving DecidableEq, Repr

/-- The literal `data` array of `server/index.js`, `app.get('/api/codes')`. -/
def codesData : List Code :=
  [ { type := "codes", id := "1",
      attributes := { description :=
        "Obama Nuclear Missile Launching Code is: lovedronesandthensa" } },
    { type := "codes", id := "2",
      attributes := { description :=
        "Putin Nuclear Missile Launching Code is: invasioncoolashuntingshirtless" } } ]

/-- Body of a response from `GET /api/codes`: either the plain-text
rejection or the JSON:API codes payload. -/
inductive CodesRespBody where
  | text (msg : String)
  | payload (data : List Code)
  deriving DecidableEq, Repr

/-- An HTTP response of the `/api/codes` endpoint. -/
structure CodesResponse where
  status : Nat
  body : CodesRespBody
  deriving DecidableEq, Repr

/-- `server/index.js`, `app.get('/api/codes')`: node lowercases incoming
header names, so the handler reads `req.headers['authorization']`; a
missing header reads as `undefined` (`none`).  Any value other than the
exact string `"Bearer some bs"` is answered with 401 `Unauthorized`
(strict `!==` comparison); the exact value gets the codes payload. -/
def getApiCodes (authorization : Option String) : CodesResponse :=
  if authorization ≠ some "Bearer some bs" then
    { status := 401, body := CodesRespBody.text "Unauthorized" }
  else
    { status := 200, body := CodesRespBody.payload codesData }

/-- `app/services/auth-manager.js`: the service state is the single mutable
property `accessToken`, a string or `null` (modelled `Option String`). -/
structure AuthManager where
  accessToken : Option String
  deriving DecidableEq, Repr

/-- The service as the framework creates it: `accessToken: null`. -/
def initialAuthManager : AuthManager := { accessToken := none }

/-- Ember `this.set('accessToken', v)`: a plain property assignment; it
stores whatever it is given and never validates or rejects its argument. -/
def setAccessToken (v : Option String) (m : AuthManager) : AuthManager :=
  { m with accessToken := v }

/-- `isAuthenticated: Ember.computed.bool('accessToken')`: JS truthiness of
the stored value — `null`/`undefined` and the empty string are falsy, every
other string is truthy. -/
def isAuthenticated (m : AuthManager) : Bool :=
  match m.accessToken with
  | none => false
  | some s => !(s == "")

/-- `result.access_token` as the ajax success callback reads it: `undefined`
(`none`) when the parsed body has no `access_token` field. -/
def accessTokenOf : TokenRespBody → Option String
  | TokenRespBody.success tok => some tok
  | TokenRespBody.failure _ => none

/-- `auth-manager.authenticate(login, password)`: sends
`{username: login, password: password}` to `POST /token` via
`Ember.$.ajax`.  jQuery resolves the promise exactly on an HTTP success
status, and the success callback stores `result.access_token`; on an error
status (the server's 400 branch) the promise rejects, the success callback
never runs and the service is left untouched.  The result is the service
state afterwards paired with the settled promise outcome (the rejection
carries the error response). -/
def authenticate (login password : String) (m : AuthManager) :
    AuthManager × Except TokenResponse Unit :=
  let resp := postToken { username := some login, password := some password }
  if 200 ≤ resp.status ∧ resp.status < 300 then
    (setAccessToken (accessTokenOf resp.body) m, Except.ok ())
  else
    (m, Except.error resp)

/-- `auth-manager.invalidate()`: `this.set('accessToken', null)`. -/
def invalidate (m : AuthManager) : AuthManager :=
  setAccessToken none m

/-- JS template-literal interpolation of the stored token:
`null` prints as the four-character string `"null"`. -/
def interpolateToken : Option String → String
  | none => "null"
  | some s => s

/-- `app/adapter/application.js`, the `headers` computed property: always a
single `Authorization` header whose value is the template literal
`Bearer ${this.get("authManager.accessToken")}`. -/
def headers (m : AuthManager) : List (String × String) :=
  [("Authorization", "Bearer " ++ interpolateToken m.accessToken)]

/-- An outgoing HTTP request, reduced to its header list. -/
structure Request where
  requestHeaders : List (String × String)
  deriving DecidableEq, Repr

/-- A fresh request carrying no headers yet. -/
def emptyRequest : Request := { requestHeaders := [] }

/-- Ember Data sends every adapter request with the adapter's `headers` set
on the XHR in addition to whatever headers the request already carries. -/
def decorate (m : AuthManager) (r : Request) : Request :=
  { r with requestHeaders := r.requestHeaders ++ headers m }

/-- ASCII lowercasing of one character, as node applies it to header
names. -/
def asciiLowerChar (c : Char) : Char :=
  if 65 ≤ c.toNat ∧ c.toNat ≤ 90 then Char.ofNat (c.toNat + 32) else c

/-- ASCII lowercasing of a header name. -/
def lowerHeaderName (s : String) : String :=
  String.mk (s.data.map asciiLowerChar)

/-- What the server reads as `req.headers['authorization']`: node lowercases
header names on receipt, so the lookup is case-insensitive in the name. -/
def requestAuthValue (r : Request) : Option String :=
  (r.requestHeaders.find? (fun p => lowerHeaderName p.1 == "authorization")).map Prod.snd

/-- Client application state visible to the route layer: the auth-manager
service and the current route. -/
structure AppState where
  authManager : AuthManager
  currentRoute : String
  deriving DecidableEq, Repr

/-- The session notifications named by the specification.  The repository
has no subscriber or event mechanism anywhere, so no operation of the code
ever delivers one. -/
inductive SessionEvent where
  | loggedIn
  | loggedOut
  | sessionExpired
  deriving DecidableEq, Repr

/-- `app/routes/application.js`, the `error` action:
`this.transitionTo('/login'); return false;`.  It changes only the current
route — the auth-manager service is neither consulted nor modified. -/
def errorAction (s : AppState) : AppState × Bool :=
  ({ s with currentRoute := "/login" }, false)

/-- Session events delivered while the route `error` action handles a
rejected request: the action only calls `transitionTo`, and the code has no
notification mechanism, so the delivered list is empty. -/
def errorActionEvents : List SessionEvent := []

/-- Session events delivered by `auth-manager.invalidate()`: the method only
assigns `accessToken`, and the code has no notification mechanism, so the
delivered list is empty. -/
def invalidateEvents : List SessionEvent := []

/-- Ember Data rejects the model-hook promise on a non-success HTTP status,
which bubbles to the application route `error` action; a success response
leaves the route layer untouched. -/
def handleCodesResponse (resp : CodesResponse) (s : AppState) : AppState :=
  if resp.status = 200 then s else (errorAction s).1

/-- Follows the spec's words (§3): the stored token is non-empty — some
token is stored and it is not the empty string.  Stated independently of
`isAuthenticated` for comparison with the code's computed boolean. -/
def tokenNonEmpty (m : AuthManager) : Prop :=
  ∃ s, m.accessToken = some s ∧ s ≠ ""

/-- The error kind the spec names for `CredentialStore.set`. -/
inductive SetError where
  | invalidArgument
  deriving DecidableEq, Repr

/-- Modelled from the spec: `CredentialStore.set(token)` (§4.1), an
operation the repository never implements as such — its counterpart in the
code is the plain assignment `setAccessToken`.  Per the spec's words it
transitions to Authenticated with the given token and fails with
`InvalidArgument` if the token is empty. -/
def credentialStoreSetSpec (tok : String) (m : AuthManager) :
    Except SetError AuthManager :=
  if tok = "" then Except.error SetError.invalidArgument
  else Except.ok (setAccessToken (some tok) m)

/-- Reachable states of the auth-manager service: created with
`accessToken: null`, then any interleaving of `authenticate` (any
credentials) and `invalidate` calls. -/
inductive Reachable : AuthManager → Prop where
  | init : Reachable initialAuthManager
  | auth (l p : String) (m : AuthManager) :
      Reachable m → Reachable (authenticate l p m).1
  | inval (m : AuthManager) :
      Reachable m → Reachable (invalidate m)

/-! ## Theorems -/

/-- C1: logging in with the valid credentials login/password succeeds, the
session stores exactly the token "some bs" and reads as authenticated, and
a subsequently decorated request carries the header
`Authorization: Bearer some bs`, which the protected endpoint accepts with
the codes payload. -/
theorem C1_valid_login_round_trip :
    authenticate "login" "password" initialAuthManager =
      ({ accessToken := some "some bs" }, Except.ok ()) ∧
    isAuthenticated { accessToken := some "some bs" } = true ∧
    requestAuthValue
        (decorate (authenticate "login" "password" initialAuthManager).1 emptyRequest) =
      some "Bearer some bs" ∧
    getApiCodes
        (requestAuthValue
          (decorate (authenticate "login" "password" initialAuthManager).1 emptyRequest)) =
      { status := 200, body := CodesRespBody.payload codesData } := by
  refine ⟨rfl, rfl, by decide, by decide⟩

/-- C2: in every reachable state of the auth-manager service the stored
token is non-empty exactly when `isAuthenticated` reports true; since
`Reachable` is closed under `authenticate` and `invalidate`, both
operations preserve the equivalence. -/
theorem C2_token_nonempty_iff_authenticated (m : AuthManager)
    (_h : Reachable m) : tokenNonEmpty m ↔ isAuthenticated m = true := by
  unfold tokenNonEmpty isAuthenticated
  cases hm : m.accessToken with
  | none => simp
  | some s => simp

/-- C2 witness: the freshly created service is reachable and satisfies the
equivalence. -/
theorem C2_token_nonempty_iff_authenticated_witness :
    tokenNonEmpty initialAuthManager ↔ isAuthenticated initialAuthManager = true :=
  C2_token_nonempty_iff_authenticated initialAuthManager Reachable.init

/-- C3: every `POST /token` request whose body has username "login" and
password "password" is answered with HTTP 200 and access_token "some bs",
and every other request is answered with HTTP 400 and error
invalid_grant. -/
theorem C3_token_endpoint_dichotomy (req : TokenReqBody) :
    (req.username = some "login" ∧ req.password = some "password" ∧
      postToken req = { status := 200, body := TokenRespBody.success "some bs" })
    ∨ (¬(req.username = some "login" ∧ req.password = some "password") ∧
      postToken req = { status := 400, body := TokenRespBody.failure "invalid_grant" }) := by
  by_cases h : req.username = some "login" ∧ req.password = some "password"
  · exact Or.inl ⟨h.1, h.2, by unfold postToken; rw [if_pos h]⟩
  · exact Or.inr ⟨h, by unfold postToken; rw [if_neg h]⟩

/-- C4: every `GET /api/codes` request carrying exactly the header value
"Bearer some bs" is answered with HTTP 200 and the codes payload, and every
other request (header missing or different) is answered with HTTP 401 and
the plain-text body Unauthorized — never the codes payload. -/
theorem C4_codes_endpoint_dichotomy (auth : Option String) :
    (auth = some "Bearer some bs" ∧
      getApiCodes auth = { status := 200, body := CodesRespBody.payload codesData })
    ∨ (auth ≠ some "Bearer some bs" ∧
      getApiCodes auth = { status := 401, body := CodesRespBody.text "Unauthorized" }) := by
  by_cases h : auth = some "Bearer some bs"
  · exact Or.inl ⟨h, by unfold getApiCodes; simp [h]⟩
  · exact Or.inr ⟨h, by unfold getApiCodes; rw [if_pos h]⟩

/-- C5: a login attempt with any credentials other than login/password
settles as a rejection carrying the 400 invalid_grant response, and the
service is left exactly as it was — the token is not set on the failure
path, so the authentication status is unchanged (Anonymous stays
Anonymous). -/
theorem C5_invalid_credentials_reject (l p : String) (m : AuthManager)
    (h : ¬(l = "login" ∧ p = "password")) :
    authenticate l p m =
      (m, Except.error { status := 400, body := TokenRespBody.failure "invalid_grant" }) ∧
    isAuthenticated (authenticate l p m).1 = isAuthenticated m := by
  have hne : ¬((some l : Option String) = some "login" ∧ (some p : Option String) = some "password") := by
    intro hc
    exact h ⟨Option.some_injective String hc.1, Option.some_injective String hc.2⟩
  have hresp : postToken { username := some l, password := some p } =
      { status := 400, body := TokenRespBody.failure "invalid_grant" } := by
    unfold postToken
    rw [if_neg hne]
  constructor
  · unfold authenticate
    rw [hresp]
    norm_num
  · unfold authenticate
    rw [hresp]
    norm_num

/-- C5 witness: the rejection at the concrete invalid pair x/y from the
freshly created (anonymous) service. -/
theorem C5_invalid_credentials_reject_witness :
    authenticate "x" "y" initialAuthManager =
      (initialAuthManager,
        Except.error { status := 400, body := TokenRespBody.failure "invalid_grant" }) ∧
    isAuthenticated (authenticate "x" "y" initialAuthManager).1 =
      isAuthenticated initialAuthManager :=
  C5_invalid_credentials_reject "x" "y" initialAuthManager (by decide)

/-- C6 counterexample: with the session anonymous (`accessToken: null`) a
decorated request is not passed through unmodified — the adapter still
attaches an Authorization header, whose value is the literal string
"Bearer null". -/
theorem C6_anonymous_decoration_counterexample :
    decorate initialAuthManager emptyRequest ≠ emptyRequest ∧
    requestAuthValue (decorate initialAuthManager emptyRequest) = some "Bearer null" := by
  refine ⟨by decide, by decide⟩

/-- C6 amended: decoration reads the credential store only (it is a pure
function of the store snapshot) but it always appends exactly one
Authorization header built by template-literal interpolation from the
current token: `Bearer <token>` when a token is stored and the literal
`Bearer null` when the session is anonymous — the request is modified in
the anonymous case too. -/
theorem C6_decorate_always_attaches (m : AuthManager) (r : Request) :
    (decorate m r).requestHeaders =
      r.requestHeaders ++ [("Authorization", "Bearer " ++ interpolateToken m.accessToken)] ∧
    requestAuthValue (decorate m emptyRequest) =
      some ("Bearer " ++ interpolateToken m.accessToken) ∧
    requestAuthValue (decorate initialAuthManager emptyRequest) = some "Bearer null" := by
  refine ⟨rfl, rfl, by decide⟩

/-- C7 counterexample: starting authenticated with token "some bs",
handling a 401 response runs the application route error action, after
which the token is still stored and the session still reads as
authenticated — the credential store is not cleared — and no SessionExpired
event is delivered. -/
theorem C7_401_handling_counterexample :
    (handleCodesResponse { status := 401, body := CodesRespBody.text "Unauthorized" }
        { authManager := { accessToken := some "some bs" },
          currentRoute := "/" }).authManager.accessToken = some "some bs" ∧
    isAuthenticated
      (handleCodesResponse { status := 401, body := CodesRespBody.text "Unauthorized" }
        { authManager := { accessToken := some "some bs" },
          currentRoute := "/" }).authManager = true ∧
    errorActionEvents.count SessionEvent.sessionExpired = 0 := by
  refine ⟨rfl, rfl, rfl⟩

/-- C7 amended: a 401 response bubbles to the application route error
action, which redirects to /login and returns false; the auth-manager
service is left untouched — a previously authenticated session stays
authenticated, the token is not cleared — and no session event of any kind
is delivered. -/
theorem C7_401_redirects_without_clearing (s : AppState) :
    (errorAction s).1.currentRoute = "/login" ∧
    (errorAction s).1.authManager = s.authManager ∧
    (errorAction s).2 = false ∧
    handleCodesResponse { status := 401, body := CodesRespBody.text "Unauthorized" } s =
      { s with currentRoute := "/login" } ∧
    errorActionEvents = [] := by
  refine ⟨rfl, rfl, rfl, rfl, rfl⟩

/-- C8 counterexample: assigning the empty string to `accessToken` does not
fail — the code stores it and the session merely reads as not
authenticated — whereas the spec's `CredentialStore.set` rejects the same
input with InvalidArgument; the two operations disagree at the empty
token. -/
theorem C8_empty_token_set_counterexample :
    setAccessToken (some "") initialAuthManager = { accessToken := some "" } ∧
    isAuthenticated (setAccessToken (some "") initialAuthManager) = false ∧
    credentialStoreSetSpec "" initialAuthManager =
      Except.error SetError.invalidArgument := by
  refine ⟨rfl, rfl, rfl⟩

/-- C8 amended: the assignment of `accessToken` never fails; given an empty
token it silently stores the empty string, and the session does not become
authenticated only because `isAuthenticated` treats the empty string as
falsy — no InvalidArgument error exists in the code. -/
theorem C8_empty_token_stored_silently (m : AuthManager) :
    setAccessToken (some "") m = { m with accessToken := some "" } ∧
    isAuthenticated (setAccessToken (some "") m) = false := by
  refine ⟨rfl, rfl⟩

/-- C9 counterexample: invalidating twice from an authenticated state
leaves the session anonymous after each call, but the total number of
LoggedOut notifications delivered is zero — not one — because the service
has no notification mechanism at all. -/
theorem C9_double_invalidate_counterexample :
    isAuthenticated (invalidate { accessToken := some "some bs" }) = false ∧
    isAuthenticated (invalidate (invalidate { accessToken := some "some bs" })) = false ∧
    (invalidateEvents ++ invalidateEvents).count SessionEvent.loggedOut = 0 ∧
    ¬(invalidateEvents ++ invalidateEvents).count SessionEvent.loggedOut = 1 := by
  refine ⟨rfl, rfl, rfl, by decide⟩

/-- C9 amended: invalidate is idempotent — a second call in succession is a
no-op returning the same anonymous state — but neither call delivers a
LoggedOut notification: the code emits no events at all. -/
theorem C9_invalidate_idempotent_no_events (m : AuthManager) :
    invalidate (invalidate m) = invalidate m ∧
    isAuthenticated (invalidate m) = false ∧
    invalidateEvents = [] := by
  refine ⟨rfl, rfl, rfl⟩

/-- C10: after invalidate stores null, every decorated request carries the
header value "Bearer null", which differs from "Bearer some bs", so the
protected endpoint answers 401 Unauthorized and never serves the codes
payload to a logged-out client. -/
theorem C10_logged_out_requests_rejected (m : AuthManager) :
    requestAuthValue (decorate (invalidate m) emptyRequest) = some "Bearer null" ∧
    getApiCodes (requestAuthValue (decorate (invalidate m) emptyRequest)) =
      { status := 401, body := CodesRespBody.text "Unauthorized" } ∧
    "Bearer null" ≠ "Bearer some bs" := by
  refine ⟨rfl, rfl, by decide⟩

end EmberAuth
